import Mathlib

set_option maxRecDepth 100000

/-!
Verification of the chat hand-off orchestration core.

Shallow embedding of the HeritageBox chat widget hand-off subsystem:
the message relay buffer (`api/messages-poll.ts`), the inbound webhook
(`api/slack-webhook.ts`), the transcript formatting (`api/chat-session.ts`)
and the widget client loop (`src/components/ChatWidget`).

JavaScript conventions that matter for fidelity: optional string fields
are `Option String`, and a JS truthiness test on such a field is
`jsTruthy`, which is false for `undefined` (`none`) and for the empty
string; `parseInt` is modelled by `parseIntJs`, returning `none` for
`NaN`; `Date.now` values are supplied as explicit parameters.
-/

namespace HBox

/-- JS truthiness of an optional string: `undefined` and `""` are falsy. -/
def jsTruthy : Option String → Bool
  | none => false
  | some s => !(s == "")

/-- JS `parseInt` on a base-10 string: skip leading whitespace, optional
sign, then the longest digit run; `NaN` (here `none`) if no digits. -/
def parseIntJs (s : String) : Option Int :=
  let cs := s.data.dropWhile (fun c => c == ' ' || c == '\t' || c == '\n' || c == '\r')
  let (neg, cs) :=
    match cs with
    | '-' :: rest => (true, rest)
    | '+' :: rest => (false, rest)
    | _ => (false, cs)
  let digits := cs.takeWhile Char.isDigit
  if digits.isEmpty then none
  else
    let n := digits.foldl (fun acc c => acc * 10 + (c.toNat - '0'.toNat)) 0
    some (if neg then -(n : Int) else (n : Int))

/-- JS string trim: drop whitespace from both ends of the string. -/
def jsTrim (s : String) : String :=
  String.mk (((s.data.dropWhile Char.isWhitespace).reverse.dropWhile
    Char.isWhitespace).reverse)

/-! Section: message relay buffer, from `api/messages-poll.ts`. -/

/-- Structure `StoredMessage` from `api/messages-poll.ts`. -/
structure StoredMessage where
  id : String
  threadId : String
  content : String
  timestamp : String
  isFromAgent : Bool
  userId : Option String := none
  sessionId : Option String := none
  deriving Repr, DecidableEq

/-- The module-level mutable state of `api/messages-poll.ts`:
`messageStore` (a map from thread id to its ordered message list) and
`messageIdCounter`. -/
structure PollStore where
  messageStore : List (String × List StoredMessage)
  messageIdCounter : Nat
  deriving Repr, DecidableEq

/-- The empty store at process start. -/
def PollStore.empty : PollStore := ⟨[], 0⟩

/-- Model of `messageStore.get(threadId) || []`. -/
def getThread (s : PollStore) (threadId : String) : List StoredMessage :=
  (s.messageStore.lookup threadId).getD []

/-- Model of `messageStore.set(threadId, msgs)` on an association list. -/
def setThread (s : PollStore) (threadId : String) (msgs : List StoredMessage) :
    PollStore :=
  { s with
    messageStore :=
      if s.messageStore.lookup threadId |>.isSome then
        s.messageStore.map (fun p => if p.1 == threadId then (threadId, msgs) else p)
      else
        s.messageStore ++ [(threadId, msgs)] }

/-- Input record of `storeMessageForPolling`. -/
structure MessageData where
  threadId : String
  content : String
  timestamp : String
  isFromAgent : Bool
  userId : Option String := none
  sessionId : Option String := none
  deriving Repr, DecidableEq

/-- Function `storeMessageForPolling` from `api/messages-poll.ts`: bump the
counter, mint an id of the form msg_(counter)_(now), and append to the
list held for the thread. Here `nowMs` stands for the current time. -/
def storeMessageForPolling (s : PollStore) (d : MessageData) (nowMs : Nat) :
    PollStore :=
  let counter := s.messageIdCounter + 1
  let messageId := "msg_" ++ toString counter ++ "_" ++ toString nowMs
  let message : StoredMessage :=
    { id := messageId, threadId := d.threadId, content := d.content,
      timestamp := d.timestamp, isFromAgent := d.isFromAgent,
      userId := d.userId, sessionId := d.sessionId }
  let threadMessages := getThread s d.threadId
  setThread { s with messageIdCounter := counter } d.threadId
    (threadMessages ++ [message])

/-- The GET branch of the `messages-poll` handler: starting from the
thread's retained list, if `lastMessageId` is truthy and matches a stored
entry, keep only the entries after the first match (`findIndex` + `slice`).
-/
def pollMessages (s : PollStore) (threadId : String)
    (lastMessageId : Option String) : List StoredMessage :=
  let threadMessages := getThread s threadId
  if jsTruthy lastMessageId then
    match lastMessageId with
    | some lid =>
      match threadMessages.findIdx? (fun m => m.id == lid) with
      | some lastIndex => threadMessages.drop (lastIndex + 1)
      | none => threadMessages
    | none => threadMessages
  else
    threadMessages

/-- Field hasMore of the poll response: the returned batch is non-empty. -/
def pollHasMore (s : PollStore) (threadId : String)
    (lastMessageId : Option String) : Bool :=
  (pollMessages s threadId lastMessageId).length > 0

/-! Section: inbound webhook, from `api/slack-webhook.ts`. -/

/-- Structure `SlackEvent` from `api/slack-webhook.ts`. -/
structure SlackEvent where
  type : String
  channel : Option String := none
  user : Option String := none
  text : Option String := none
  ts : Option String := none
  thread_ts : Option String := none
  bot_id : Option String := none
  subtype : Option String := none
  deriving Repr, DecidableEq

/-- Structure `SlackEventPayload` from `api/slack-webhook.ts`, with the
fields the handler reads. -/
structure SlackEventPayload where
  type : String
  event : Option SlackEvent := none
  challenge : Option String := none
  deriving Repr, DecidableEq

/-- Environment and library facilities of the webhook module:
the signing secret and agent-channel id (`process.env`), the current
time in seconds (`Math.floor(Date.now() / 1000)`) and milliseconds
(`Date.now()`), and the HMAC-SHA256 hex digest primitive
(the createHmac sha256 hex digest of the node crypto library), kept
abstract as a function parameter. -/
structure WebhookEnv where
  signingSecret : Option String
  vipSalesChannelId : Option String
  nowSec : Int
  nowMs : Nat
  hmacSha256Hex : String → String → String

/-- The signature the verifier computes for a body/timestamp pair:
`v0=` + HMAC-SHA256 hex over `v0:<timestamp>:<body>`. -/
def expectedSignature (env : WebhookEnv) (secret body timestamp : String) :
    String :=
  "v0=" ++ env.hmacSha256Hex secret ("v0:" ++ timestamp ++ ":" ++ body)

/-- Function `verifySlackSignature` from `api/slack-webhook.ts`. A
timestamp that `parseInt` cannot parse yields `NaN`, and a JS comparison
against `NaN` is false, so such a request is not rejected by the age
check. -/
def verifySlackSignature (env : WebhookEnv) (body signature timestamp : String) :
    Bool :=
  if !(jsTruthy env.signingSecret) then false
  else
    let secret := env.signingSecret.getD ""
    let staleByAge :=
      match parseIntJs timestamp with
      | some time => decide ((env.nowSec - time).natAbs > 300)
      | none => false
    if staleByAge then false
    else signature == expectedSignature env secret body timestamp

/-- Function `processSlackMessage` from `api/slack-webhook.ts`, as its effect on
the poll store. Bot messages, subtyped messages, messages without text or
user, messages outside the `#vip-sales` channel, and messages without a
`thread_ts` leave the store untouched; a threaded message is stored for
polling with `isFromAgent = true`. -/
def processSlackMessage (env : WebhookEnv) (store : PollStore)
    (event : SlackEvent) : PollStore :=
  if jsTruthy event.bot_id || jsTruthy event.subtype ||
      !(jsTruthy event.text) || !(jsTruthy event.user) then store
  else if !(jsTruthy env.vipSalesChannelId) ||
      !(event.channel == env.vipSalesChannelId) then store
  else if jsTruthy event.thread_ts then
    storeMessageForPolling store
      { threadId := event.thread_ts.getD ""
        content := event.text.getD ""
        timestamp := if jsTruthy event.ts then event.ts.getD ""
                     else toString env.nowMs
        isFromAgent := true
        userId := event.user }
      env.nowMs
  else store

/-- Outcome of one webhook request: HTTP status and the store afterwards. -/
structure WebhookResult where
  status : Nat
  store : PollStore
  deriving Repr, DecidableEq

/-- The main `slack-webhook` handler, as status code plus store effect.
Here `rawBody` is the serialized request body — the exact string the
signature is computed over — and `payload` is the parsed body. -/
def slackWebhookHandler (env : WebhookEnv) (store : PollStore)
    (method : String) (signature timestamp : Option String)
    (rawBody : String) (payload : SlackEventPayload) : WebhookResult :=
  if method == "OPTIONS" then ⟨200, store⟩
  else if !(method == "POST") then ⟨405, store⟩
  else if !(jsTruthy signature) || !(jsTruthy timestamp) ||
      !(verifySlackSignature env rawBody (signature.getD "") (timestamp.getD "")) then
    ⟨401, store⟩
  else if payload.type == "url_verification" then ⟨200, store⟩
  else if payload.type == "event_callback" && payload.event.isSome then
    match payload.event with
    | some event => ⟨200, processSlackMessage env store event⟩
    | none => ⟨200, store⟩
  else ⟨200, store⟩

/-! Section: widget client loop, from `src/components/ChatWidget/ChatWidget.tsx`. -/

/-- Field sender of `Message` from `src/utils/chatUtils.ts`: one of
`user`, `bot`, `human`. -/
inductive Sender where
  | user
  | bot
  | human
  deriving Repr, DecidableEq

/-- Structure `Message` from `src/utils/chatUtils.ts`. The `timestamp`
field is the epoch-millisecond value of the JS Date. -/
structure Message where
  id : String
  content : String
  sender : Sender
  timestamp : Nat
  deriving Repr, DecidableEq

/-- Mode of an `ExtendedChatSession`: `ai` or `human`. -/
inductive Mode where
  | ai
  | human
  deriving Repr, DecidableEq

/-- Status of an `ExtendedChatSession`: `active` or `ended`. -/
inductive Status where
  | active
  | ended
  deriving Repr, DecidableEq

/-- Structure `ExtendedChatSession` from `src/utils/chatUtils.ts`, with
the fields the widget manipulates. The `slackThreadId` field is the
agent-channel thread id. -/
structure Session where
  sessionId : String
  isHandoffMode : Bool
  slackThreadId : Option String := none
  mode : Mode
  messages : List Message
  customerEmail : Option String := none
  status : Status
  deriving Repr, DecidableEq

/-- Outcome of the chat-ai call in `sendMessage`: a non-ok HTTP
response (or a rejected fetch) throws; an ok response carries
`data.response`. -/
inductive AIResponse where
  | ok (text : String)
  | fail
  deriving Repr, DecidableEq

/-- Outcome of the chat-slack sendMessage call: a non-ok response throws. -/
inductive SlackPostResponse where
  | ok
  | fail
  deriving Repr, DecidableEq

/-- Outcome of the chat-slack createThread call in
`switchToHuman`: a non-ok HTTP response throws (`httpError`); an ok
response either carries `data.success && data.threadId` (`success`) or
does not, in which case the code silently does nothing more
(`softFail`). -/
inductive CreateThreadResponse where
  | success (threadId : String)
  | softFail
  | httpError
  deriving Repr, DecidableEq

/-- Record of the provider calls one `sendMessage` run issues:
`addMessage` persistence calls to `/api/chat-session` (in order), and
posts to the agent channel via `/api/chat-slack`, as
(threadId, content) pairs. -/
structure SendEffects where
  transcriptAppends : List Message
  slackPosts : List (String × String)
  deriving Repr, DecidableEq

/-- Result of one `sendMessage` run. -/
structure SendResult where
  session : Session
  effects : SendEffects
  deriving Repr, DecidableEq

/-- The generic apology appended by the catch block of `sendMessage`. -/
def sendFailureMessage (uuid : Nat → String) (nowMs : Nat) : Message :=
  { id := uuid 2
    content := "Sorry, I\u0027m having trouble responding right now. Please try again in a moment."
    sender := Sender.bot
    timestamp := nowMs }

/-- Function `sendMessage` from `ChatWidget.tsx` as a state transformer.
`uuid` supplies the `uuidv4()` values drawn during the run (argument 0:
user message, 1: bot reply, 2: error message); `nowMs` is the run's
`Date.now()`. The guard `if (!session || isLoading) return` is the
`isLoading` test (the session always exists here). The user message is
appended and its `addMessage` persistence call issued before the mode
branch; in human mode a missing (or empty) `slackThreadId` throws into
the catch block. -/
def sendMessage (uuid : Nat → String) (nowMs : Nat) (s : Session)
    (isLoading : Bool) (content : String) (ai : AIResponse)
    (slackPost : SlackPostResponse) : SendResult :=
  if isLoading then ⟨s, [], []⟩
  else
    let userMessage : Message :=
      { id := uuid 0, content := content, sender := Sender.user,
        timestamp := nowMs }
    let updatedMessages := s.messages ++ [userMessage]
    match s.mode with
    | Mode.ai =>
      match ai with
      | AIResponse.ok text =>
        let botMessage : Message :=
          { id := uuid 1, content := text, sender := Sender.bot,
            timestamp := nowMs }
        ⟨{ s with messages := updatedMessages ++ [botMessage] },
          [userMessage, botMessage], []⟩
      | AIResponse.fail =>
        ⟨{ s with messages := updatedMessages ++ [sendFailureMessage uuid nowMs] },
          [userMessage], []⟩
    | Mode.human =>
      if !(jsTruthy s.slackThreadId) then
        -- the code throws: no Slack thread ID available
        ⟨{ s with messages := updatedMessages ++ [sendFailureMessage uuid nowMs] },
          [userMessage], []⟩
      else
        let threadId := s.slackThreadId.getD ""
        match slackPost with
        | SlackPostResponse.ok =>
          ⟨{ s with messages := updatedMessages },
            [userMessage, userMessage], [(threadId, content)]⟩
        | SlackPostResponse.fail =>
          ⟨{ s with messages := updatedMessages ++ [sendFailureMessage uuid nowMs] },
            [userMessage], []⟩

/-- The transition notice `switchToHuman` appends before calling the
bridge. -/
def transitionMessage (uuid : Nat → String) (nowMs : Nat) : Message :=
  { id := uuid 0
    content := "I\u0027m connecting you with a human agent. Please hold on a moment..."
    sender := Sender.bot
    timestamp := nowMs }

/-- The confirmation appended once the bridge returns a thread id. -/
def handoffConfirmMessage (uuid : Nat → String) (nowMs : Nat) : Message :=
  { id := uuid 1
    content := "Connected! Our team will respond shortly. Your conversation is now being handled by a live agent."
    sender := Sender.bot
    timestamp := nowMs }

/-- The apology appended by the catch block of `switchToHuman`. -/
def handoffErrorMessage (uuid : Nat → String) (nowMs : Nat) : Message :=
  { id := uuid 2
    content := "Sorry, I couldn\u0027t connect you to an agent right now. Please try again or contact us directly."
    sender := Sender.bot
    timestamp := nowMs }

/-- Function `switchToHuman` from `ChatWidget.tsx`. It optimistically appends the
transition message and sets the mode to human; on a successful bridge call
it records the returned thread id and appends the confirmation; on an ok
response without `success && threadId` it does nothing further; on a
thrown error it appends the apology and rolls the mode back to ai. -/
def switchToHuman (uuid : Nat → String) (nowMs : Nat) (s : Session)
    (resp : CreateThreadResponse) : Session :=
  let updatedMessages := s.messages ++ [transitionMessage uuid nowMs]
  match resp with
  | CreateThreadResponse.success threadId =>
    { s with
      messages := updatedMessages ++ [handoffConfirmMessage uuid nowMs]
      mode := Mode.human
      slackThreadId := some threadId }
  | CreateThreadResponse.softFail =>
    { s with messages := updatedMessages, mode := Mode.human }
  | CreateThreadResponse.httpError =>
    { s with
      messages := updatedMessages ++ [handoffErrorMessage uuid nowMs]
      mode := Mode.ai }

/-- The hand-off summary that `switchToHuman` posts: customer-authored
contents joined by blank lines, or the fallback text when empty. -/
def conversationSummary (s : Session) (uuid : Nat → String) (nowMs : Nat) :
    String :=
  let joined :=
    ((s.messages ++ [transitionMessage uuid nowMs]).filter
        (fun m => m.sender == Sender.user)).map (fun m => m.content)
      |> (fun l => String.intercalate "\n\n" l)
  if joined == "" then "Customer requesting human assistance" else joined

/-- File `ChatWindow.tsx` renders the hand-off button only when the
session mode is ai. -/
def handoffButtonShown (s : Session) : Bool :=
  s.mode == Mode.ai

/-- The poll response body — success flag plus message batch — as the
widget reads it. -/
structure PollApiResponse where
  success : Bool
  messages : List StoredMessage
  deriving Repr, DecidableEq

/-- The client-side widget state that the poll effect uses: the session
plus the `lastMessageId` cursor. -/
structure WidgetState where
  session : Session
  lastMessageId : Option String := none
  deriving Repr, DecidableEq

/-- How the poll effect converts a polled `StoredMessage` into a widget
`Message` (`ChatWidget.tsx`, poll `useEffect`). -/
def convertPolled (m : StoredMessage) : Message :=
  { id := m.id
    content := m.content
    sender := if m.isFromAgent then Sender.human else Sender.user
    timestamp := ((parseIntJs m.timestamp).getD 0).toNat }

/-- One tick of the poll effect in `ChatWidget.tsx`: inactive unless the
mode is human and a thread id is set; a non-ok fetch is ignored; on
success with a non-empty batch the converted messages are appended and
the cursor advances to the last polled id. -/
def pollTick (st : WidgetState) (httpOk : Bool) (resp : PollApiResponse) :
    WidgetState :=
  let s := st.session
  if !(s.mode == Mode.human) || !(jsTruthy s.slackThreadId) then st
  else if !httpOk then st
  else if resp.success && decide (resp.messages.length > 0) then
    match resp.messages.getLast? with
    | some lastMsg =>
      { session := { s with messages := s.messages ++ resp.messages.map convertPolled }
        lastMessageId := some lastMsg.id }
    | none => st
  else st

/-- One externally-triggered step of the widget client loop. Each step
carries the provider outcomes it observes. -/
inductive WidgetEvent where
  | send (isLoading : Bool) (content : String) (ai : AIResponse)
      (slackPost : SlackPostResponse)
  | handoff (resp : CreateThreadResponse)
  | poll (httpOk : Bool) (resp : PollApiResponse)

/-- Interpretation of one widget event on the widget state. -/
def widgetStep (uuid : Nat → String) (nowMs : Nat) (st : WidgetState)
    (ev : WidgetEvent) : WidgetState :=
  match ev with
  | WidgetEvent.send isLoading content ai slackPost =>
    { st with session := (sendMessage uuid nowMs st.session isLoading content ai slackPost).session }
  | WidgetEvent.handoff resp =>
    { st with session := switchToHuman uuid nowMs st.session resp }
  | WidgetEvent.poll httpOk resp => pollTick st httpOk resp

/-- A run of the widget loop over a list of events. -/
def widgetRun (uuid : Nat → String) (nowMs : Nat) (st : WidgetState)
    (evs : List WidgetEvent) : WidgetState :=
  evs.foldl (widgetStep uuid nowMs) st

/-! Section: transcript store, from `api/chat-session.ts`. -/

/-- Function `formatTranscriptEntry` from `api/chat-session.ts`. Here
`toIso` stands for the library ISO-8601 rendering of the
epoch-millisecond timestamp. -/
def formatTranscriptEntry (toIso : Nat → String) (message : Message) :
    String :=
  let timestamp := toIso message.timestamp
  let senderLabel :=
    if message.sender == Sender.user then "Customer"
    else if message.sender == Sender.bot then "AI Assistant"
    else "Human Agent"
  "[" ++ timestamp ++ "] " ++ senderLabel ++ ": " ++ message.content

/-- The transcript written by `createChatSession`: the formatted welcome
line. -/
def transcriptAfterCreate (toIso : Nat → String) (initialMessage : Message) :
    String :=
  formatTranscriptEntry toIso initialMessage

/-- The transcript-field update of `updateChatSession`: the existing
transcript, a newline, then the new formatted entry. -/
def transcriptAddMessage (toIso : Nat → String) (existingTranscript : String)
    (message : Message) : String :=
  existingTranscript ++ "\n" ++ formatTranscriptEntry toIso message

/-- The transcript after the session was created with `initialMessage`
and each of `msgs` was appended by `updateChatSession`, in order. -/
def transcriptAfter (toIso : Nat → String) (initialMessage : Message)
    (msgs : List Message) : String :=
  msgs.foldl (transcriptAddMessage toIso) (transcriptAfterCreate toIso initialMessage)

/-! Section: message input, from `src/components/ChatWidget/MessageInput.tsx`. -/

/-- The maxLength attribute value on the input element. -/
def maxMessageLength : Nat := 1000

/-- Whether the input element can hold `value` at all: the HTML
maxLength attribute bounds the value at 1000 characters. -/
def inputValueAllowed (value : String) : Bool :=
  value.length ≤ maxMessageLength

/-- Function `handleSend` from `MessageInput.tsx`: trim, and submit only
when the trimmed message is non-empty and the input is not disabled;
here `none` means nothing is sent. -/
def handleSend (disabled : Bool) (message : String) : Option String :=
  let trimmedMessage := jsTrim message
  if !(trimmedMessage == "") && !disabled then some trimmedMessage else none

/-! Section: concrete fixtures used as test inputs by the witness and
counterexample theorems below. -/

/-- A deterministic stand-in for the uuid generator. -/
def uuidFix : Nat → String := fun n => "uuid-" ++ toString n

/-- A concrete welcome message. -/
def welcomeFix : Message :=
  { id := "m0", content := "Welcome to HeritageBox support.",
    sender := Sender.bot, timestamp := 0 }

/-- A fresh session in AI mode with no agent thread. -/
def aiSessionFix : Session :=
  { sessionId := "sess-ai", isHandoffMode := false, slackThreadId := none,
    mode := Mode.ai, messages := [welcomeFix], status := Status.active }

/-- A session already handed off to a human, thread `T1`. -/
def humanSessionFix : Session :=
  { sessionId := "sess-h", isHandoffMode := true, slackThreadId := some "T1",
    mode := Mode.human, messages := [welcomeFix], status := Status.active }

/-- A session in human mode whose thread id was never set. -/
def noThreadSessionFix : Session :=
  { sessionId := "sess-nt", isHandoffMode := true, slackThreadId := none,
    mode := Mode.human, messages := [welcomeFix], status := Status.active }

/-- Three stored relay entries for thread `T1`. -/
def storedFix1 : StoredMessage :=
  { id := "msg_1_10", threadId := "T1", content := "one", timestamp := "10",
    isFromAgent := true, userId := some "U1" }

/-- Second stored relay entry. -/
def storedFix2 : StoredMessage :=
  { id := "msg_2_11", threadId := "T1", content := "two", timestamp := "11",
    isFromAgent := true, userId := some "U1" }

/-- Third stored relay entry. -/
def storedFix3 : StoredMessage :=
  { id := "msg_3_12", threadId := "T1", content := "three", timestamp := "12",
    isFromAgent := true, userId := some "U1" }

/-- A poll store retaining the three entries above for thread `T1`. -/
def pollStoreFix : PollStore :=
  { messageStore := [("T1", [storedFix1, storedFix2, storedFix3])],
    messageIdCounter := 3 }

/-- A concrete webhook environment with an abstract-but-injective digest. -/
def webhookEnvFix : WebhookEnv :=
  { signingSecret := some "s3cr3t", vipSalesChannelId := some "C02CPNGTL5Q",
    nowSec := 1000000, nowMs := 1700000000000,
    hmacSha256Hex := fun key data => "h-" ++ key ++ "-" ++ data }

/-- An event that meets every condition the claim lists for relaying, yet
carries a message subtype. -/
def subtypedEventFix : SlackEvent :=
  { type := "message", channel := some "C02CPNGTL5Q", user := some "U1",
    text := some "hello", ts := some "123.456", thread_ts := some "T1",
    bot_id := none, subtype := some "channel_join" }

/-- A fully relayable agent reply event. -/
def agentReplyEventFix : SlackEvent :=
  { type := "message", channel := some "C02CPNGTL5Q", user := some "U1",
    text := some "Sure, one moment", ts := some "123.456",
    thread_ts := some "T1", bot_id := none, subtype := none }

/-- An event meeting every condition the claim lists for relaying, yet
lacking a user identity. -/
def userlessEventFix : SlackEvent :=
  { type := "message", channel := some "C02CPNGTL5Q", user := none,
    text := some "hello", ts := some "123.456", thread_ts := some "T1",
    bot_id := none, subtype := none }

/-- A relayable agent reply event that carries no channel timestamp. -/
def tslessEventFix : SlackEvent :=
  { type := "message", channel := some "C02CPNGTL5Q", user := some "U1",
    text := some "Sure, one moment", ts := none,
    thread_ts := some "T1", bot_id := none, subtype := none }

/-- A string of `n` letters. -/
def aString (n : Nat) : String := String.mk (List.replicate n 'a')

/-! Section: theorems. -/

/-- Truthiness of a missing value. -/
theorem jsTruthy_none : jsTruthy none = false := rfl

/-- Truthiness of a present string value. -/
theorem jsTruthy_some (s : String) : jsTruthy (some s) = !(s == "") := rfl

/-- C1: if the bridge call that opens the agent-channel thread fails
during a hand-off request (non-ok createThread response), then after the
attempt the session mode is AI, the agent thread id is still unset, and
the retry apology is appended for the customer. -/
theorem handoff_openThread_failure_rollback (uuid : Nat → String)
    (nowMs : Nat) (s : Session) (h : s.slackThreadId = none) :
    (switchToHuman uuid nowMs s CreateThreadResponse.httpError).mode = Mode.ai ∧
    (switchToHuman uuid nowMs s CreateThreadResponse.httpError).slackThreadId = none ∧
    (switchToHuman uuid nowMs s CreateThreadResponse.httpError).messages
      = s.messages ++ [transitionMessage uuid nowMs, handoffErrorMessage uuid nowMs] ∧
    (handoffErrorMessage uuid nowMs).sender = Sender.bot ∧
    (handoffErrorMessage uuid nowMs).content
      = "Sorry, I couldn't connect you to an agent right now. Please try again or contact us directly." := by
  simp [switchToHuman, h, handoffErrorMessage]

/-- Witness for C1 at a concrete fresh AI session. -/
theorem handoff_openThread_failure_rollback_witness :
    (switchToHuman uuidFix 3 aiSessionFix CreateThreadResponse.httpError).mode = Mode.ai ∧
    (switchToHuman uuidFix 3 aiSessionFix CreateThreadResponse.httpError).slackThreadId = none :=
  ⟨(handoff_openThread_failure_rollback uuidFix 3 aiSessionFix rfl).1,
   (handoff_openThread_failure_rollback uuidFix 3 aiSessionFix rfl).2.1⟩

/-- C4 counterexample: invoking the hand-off operation on a session
already in HUMAN mode is not rejected and does not leave the session
unchanged — the transition and confirmation messages are appended and the
agent thread id is replaced by the newly opened thread. -/
theorem handoff_in_human_mode_not_rejected :
    humanSessionFix.mode = Mode.human ∧
    humanSessionFix.slackThreadId = some "T1" ∧
    (switchToHuman uuidFix 5 humanSessionFix (CreateThreadResponse.success "T2")).messages.length
      = humanSessionFix.messages.length + 2 ∧
    (switchToHuman uuidFix 5 humanSessionFix (CreateThreadResponse.success "T2")).slackThreadId
      = some "T2" := by
  decide

/-- C4 amended: the widget UI offers the hand-off control only while the
session is in AI mode, so no hand-off can be requested on a HUMAN-mode
session through the UI; the `switchToHuman` operation itself performs no
mode guard, and when invoked directly on a HUMAN-mode session it appends
the transition and confirmation messages and replaces the agent thread
id. -/
theorem handoff_gated_by_ui_not_by_operation (s : Session)
    (uuid : Nat → String) (nowMs : Nat) (tid : String)
    (h : s.mode = Mode.human) :
    handoffButtonShown s = false ∧
    (∀ s2 : Session, handoffButtonShown s2 = true ↔ s2.mode = Mode.ai) ∧
    (switchToHuman uuid nowMs s (CreateThreadResponse.success tid)).slackThreadId = some tid ∧
    (switchToHuman uuid nowMs s (CreateThreadResponse.success tid)).messages
      = s.messages ++ [transitionMessage uuid nowMs, handoffConfirmMessage uuid nowMs] := by
  refine ⟨by simp [handoffButtonShown, h], fun s2 => ?_, by simp [switchToHuman], by simp [switchToHuman]⟩
  cases h2 : s2.mode <;> simp [handoffButtonShown, h2]

/-- Witness for the amended C4 at a concrete HUMAN-mode session. -/
theorem handoff_gated_by_ui_not_by_operation_witness :
    handoffButtonShown humanSessionFix = false ∧
    (switchToHuman uuidFix 5 humanSessionFix (CreateThreadResponse.success "T2")).slackThreadId
      = some "T2" :=
  ⟨(handoff_gated_by_ui_not_by_operation humanSessionFix uuidFix 5 "T2" rfl).1,
   (handoff_gated_by_ui_not_by_operation humanSessionFix uuidFix 5 "T2" rfl).2.2.1⟩

/-- C5 counterexample: submitting a customer message in HUMAN mode with
no agent thread id set is not free of side effects — the customer message
and an error notice are appended to the session, and an addMessage
persistence call for the customer message is issued. -/
theorem human_send_without_thread_has_side_effects :
    noThreadSessionFix.mode = Mode.human ∧
    noThreadSessionFix.slackThreadId = none ∧
    (sendMessage uuidFix 7 noThreadSessionFix false "need help" AIResponse.fail
        SlackPostResponse.ok).session.messages.length
      = noThreadSessionFix.messages.length + 2 ∧
    (sendMessage uuidFix 7 noThreadSessionFix false "need help" AIResponse.fail
        SlackPostResponse.ok).effects.transcriptAppends ≠ [] := by
  decide

/-- C5 amended: a customer message submitted in HUMAN mode without an
agent thread id is rejected with an error notice and nothing is posted to
the agent channel, but only after the customer message has been appended
to the session and its transcript persistence call has been issued; the
mode and thread id keep their values. -/
theorem human_send_without_thread_effects (uuid : Nat → String)
    (nowMs : Nat) (s : Session) (content : String) (ai : AIResponse)
    (slackPost : SlackPostResponse) (hm : s.mode = Mode.human)
    (ht : s.slackThreadId = none) :
    (sendMessage uuid nowMs s false content ai slackPost).effects.slackPosts = [] ∧
    (sendMessage uuid nowMs s false content ai slackPost).effects.transcriptAppends
      = [{ id := uuid 0, content := content, sender := Sender.user, timestamp := nowMs }] ∧
    (sendMessage uuid nowMs s false content ai slackPost).session.messages
      = s.messages ++ [{ id := uuid 0, content := content, sender := Sender.user, timestamp := nowMs },
          sendFailureMessage uuid nowMs] ∧
    (sendMessage uuid nowMs s false content ai slackPost).session.mode = Mode.human ∧
    (sendMessage uuid nowMs s false content ai slackPost).session.slackThreadId = none := by
  simp [sendMessage, hm, ht, jsTruthy]

/-- Witness for the amended C5 at a concrete thread-less HUMAN session. -/
theorem human_send_without_thread_effects_witness :
    (sendMessage uuidFix 7 noThreadSessionFix false "need help" AIResponse.fail
        SlackPostResponse.ok).effects.slackPosts = [] ∧
    (sendMessage uuidFix 7 noThreadSessionFix false "need help" AIResponse.fail
        SlackPostResponse.ok).session.mode = Mode.human :=
  ⟨(human_send_without_thread_effects uuidFix 7 noThreadSessionFix "need help"
      AIResponse.fail SlackPostResponse.ok rfl rfl).1,
   (human_send_without_thread_effects uuidFix 7 noThreadSessionFix "need help"
      AIResponse.fail SlackPostResponse.ok rfl rfl).2.2.2.1⟩

/-- C10: the hasMore flag of a poll response is true exactly when the
returned batch is non-empty, and polling a thread with no stored entries
returns an empty batch with hasMore false. -/
theorem poll_hasMore_iff_nonempty (s : PollStore) (threadId : String)
    (lastMessageId : Option String) :
    (pollHasMore s threadId lastMessageId = true
      ↔ pollMessages s threadId lastMessageId ≠ []) ∧
    (getThread s threadId = [] →
      pollMessages s threadId lastMessageId = [] ∧
      pollHasMore s threadId lastMessageId = false) := by
  constructor
  · simp [pollHasMore, List.length_pos]
  · intro h
    have hempty : pollMessages s threadId lastMessageId = [] := by
      unfold pollMessages
      rw [h]
      rcases lastMessageId with _ | lid
      · simp [jsTruthy]
      · by_cases hl : lid = "" <;> simp [jsTruthy, hl]
    exact ⟨hempty, by simp [pollHasMore, hempty]⟩

/-- Witness for C10 on the empty store. -/
theorem poll_hasMore_iff_nonempty_witness :
    pollMessages PollStore.empty "T1" none = [] ∧
    pollHasMore PollStore.empty "T1" none = false :=
  (poll_hasMore_iff_nonempty PollStore.empty "T1" none).2 rfl

/-- C2: a POST webhook request whose provided signature differs from the
freshly computed HMAC over the exact body, or whose parsed timestamp is
more than 300 seconds from the current time, is answered 401 and leaves
the relay store untouched, whatever the payload contains. -/
theorem webhook_auth_failure_rejected (env : WebhookEnv) (store : PollStore)
    (sig ts : String) (rawBody : String) (payload : SlackEventPayload)
    (secret : String) (hsec : env.signingSecret = some secret)
    (hsec2 : secret ≠ "") :
    (sig ≠ expectedSignature env secret rawBody ts →
      slackWebhookHandler env store "POST" (some sig) (some ts) rawBody payload
        = ⟨401, store⟩) ∧
    (∀ t : Int, parseIntJs ts = some t → (env.nowSec - t).natAbs > 300 →
      slackWebhookHandler env store "POST" (some sig) (some ts) rawBody payload
        = ⟨401, store⟩) := by
  constructor
  · intro hbad
    have hv : verifySlackSignature env rawBody sig ts = false := by
      unfold verifySlackSignature
      rcases hp : parseIntJs ts with _ | t <;>
        simp [hsec, jsTruthy, hsec2, hp, hbad]
    simp [slackWebhookHandler, jsTruthy, hv]
  · intro t hp hstale
    have hv : verifySlackSignature env rawBody sig ts = false := by
      unfold verifySlackSignature
      simp [hsec, jsTruthy, hsec2, hp, hstale]
    simp [slackWebhookHandler, jsTruthy, hv]

/-- Witness for C2: a concrete POST with a wrong signature is answered
401 and the store stays empty. -/
theorem webhook_auth_failure_rejected_witness :
    slackWebhookHandler webhookEnvFix PollStore.empty "POST" (some "v0=bad")
        (some "1000000") "rawbody"
        { type := "event_callback", event := some agentReplyEventFix }
      = ⟨401, PollStore.empty⟩ :=
  (webhook_auth_failure_rejected webhookEnvFix PollStore.empty "v0=bad"
      "1000000" "rawbody"
      { type := "event_callback", event := some agentReplyEventFix }
      "s3cr3t" rfl (by decide)).1 (by decide)

/-- C6 counterexample: an authenticated event that has a thread
reference, is not from a bot, lies in the designated channel and carries
text still produces no relay entry when it carries a message subtype or
when it lacks a user identity, so the claimed condition list is
incomplete on both counts. -/
theorem uncovered_events_not_relayed :
    (subtypedEventFix.thread_ts = some "T1" ∧
     subtypedEventFix.bot_id = none ∧
     subtypedEventFix.channel = webhookEnvFix.vipSalesChannelId ∧
     subtypedEventFix.text = some "hello" ∧
     processSlackMessage webhookEnvFix pollStoreFix subtypedEventFix
       = pollStoreFix) ∧
    (userlessEventFix.thread_ts = some "T1" ∧
     userlessEventFix.bot_id = none ∧
     userlessEventFix.subtype = none ∧
     userlessEventFix.channel = webhookEnvFix.vipSalesChannelId ∧
     userlessEventFix.text = some "hello" ∧
     userlessEventFix.user = none ∧
     processSlackMessage webhookEnvFix pollStoreFix userlessEventFix
       = pollStoreFix) := by
  decide

/-- C6 amended: no relay entry is produced for events that are from a bot
identity, carry a message subtype, lack text, lack a user identity, are
outside the designated agent channel, or lack a thread reference; an
event clearing all those checks is stored for its thread with the event
text, sender and channel-provided timestamp — falling back to the current
time when the event carries no timestamp — and isFromAgent true. -/
theorem relay_entry_characterization (env : WebhookEnv) (store : PollStore)
    (event : SlackEvent) (hvip : jsTruthy env.vipSalesChannelId = true) :
    ((jsTruthy event.bot_id = true ∨ jsTruthy event.subtype = true ∨
      jsTruthy event.text = false ∨ jsTruthy event.user = false ∨
      ¬ event.channel = env.vipSalesChannelId ∨
      jsTruthy event.thread_ts = false) →
      processSlackMessage env store event = store) ∧
    (∀ (tid txt uid tsv : String),
      event.bot_id = none → event.subtype = none →
      event.text = some txt → txt ≠ "" →
      event.user = some uid → uid ≠ "" →
      event.channel = env.vipSalesChannelId →
      event.thread_ts = some tid → tid ≠ "" →
      event.ts = some tsv → tsv ≠ "" →
      processSlackMessage env store event
        = storeMessageForPolling store
            { threadId := tid, content := txt, timestamp := tsv,
              isFromAgent := true, userId := some uid } env.nowMs) ∧
    (∀ (tid txt uid : String),
      event.bot_id = none → event.subtype = none →
      event.text = some txt → txt ≠ "" →
      event.user = some uid → uid ≠ "" →
      event.channel = env.vipSalesChannelId →
      event.thread_ts = some tid → tid ≠ "" →
      jsTruthy event.ts = false →
      processSlackMessage env store event
        = storeMessageForPolling store
            { threadId := tid, content := txt,
              timestamp := toString env.nowMs,
              isFromAgent := true, userId := some uid } env.nowMs) := by
  refine ⟨?_, ?_, ?_⟩
  · intro hcase
    unfold processSlackMessage
    rcases hcase with h | h | h | h | h | h <;> simp [h]
  · intro tid txt uid tsv hbot hsub htxt htxt2 huser huser2 hch hth hth2 hts hts2
    unfold processSlackMessage
    simp [hbot, hsub, htxt, htxt2, huser, huser2, hch, hvip, hth, hth2, hts,
      hts2, jsTruthy_some, jsTruthy_none]
  · intro tid txt uid hbot hsub htxt htxt2 huser huser2 hch hth hth2 hts
    unfold processSlackMessage
    simp [hbot, hsub, htxt, htxt2, huser, huser2, hch, hvip, hth, hth2, hts,
      jsTruthy_some, jsTruthy_none]

/-- Witness for the amended C6: a concrete agent reply is stored for its
thread with its channel timestamp, and one carrying no timestamp is
stored with the current time. -/
theorem relay_entry_characterization_witness :
    (processSlackMessage webhookEnvFix pollStoreFix agentReplyEventFix
      = storeMessageForPolling pollStoreFix
          { threadId := "T1", content := "Sure, one moment",
            timestamp := "123.456", isFromAgent := true, userId := some "U1" }
          webhookEnvFix.nowMs) ∧
    (processSlackMessage webhookEnvFix pollStoreFix tslessEventFix
      = storeMessageForPolling pollStoreFix
          { threadId := "T1", content := "Sure, one moment",
            timestamp := toString webhookEnvFix.nowMs,
            isFromAgent := true, userId := some "U1" }
          webhookEnvFix.nowMs) :=
  ⟨(relay_entry_characterization webhookEnvFix pollStoreFix agentReplyEventFix
      (by decide)).2.1
    "T1" "Sure, one moment" "U1" "123.456" rfl rfl rfl (by decide) rfl
    (by decide) rfl rfl (by decide) rfl (by decide),
   (relay_entry_characterization webhookEnvFix pollStoreFix tslessEventFix
      (by decide)).2.2
    "T1" "Sure, one moment" "U1" rfl rfl rfl (by decide) rfl
    (by decide) rfl rfl (by decide) (by decide)⟩

/-- C3: with an absent or unknown cursor a poll returns the thread's full
retained sequence, and when the cursor names a stored entry (entry ids
being distinct, as minted ids are) the poll returns exactly the entries
stored strictly after that entry, in stored order. -/
theorem poll_returns_suffix_after_cursor (s : PollStore) (threadId : String) :
    pollMessages s threadId none = getThread s threadId ∧
    (∀ lid : String,
      lid ∉ (getThread s threadId).map StoredMessage.id →
      pollMessages s threadId (some lid) = getThread s threadId) ∧
    (∀ (lid : String) (l1 l2 : List StoredMessage) (e : StoredMessage),
      lid ≠ "" →
      ((getThread s threadId).map StoredMessage.id).Nodup →
      getThread s threadId = l1 ++ e :: l2 →
      e.id = lid →
      pollMessages s threadId (some lid) = l2) := by
  refine ⟨by simp [pollMessages, jsTruthy_none], ?_, ?_⟩
  · intro lid hmem
    by_cases hl : lid = ""
    · subst hl
      simp [pollMessages, jsTruthy_some]
    · have hfind : (getThread s threadId).findIdx? (fun m => m.id == lid) = none := by
        rw [List.findIdx?_eq_none_iff]
        intro x hx
        simp only [beq_eq_false_iff_ne, ne_eq]
        intro hxe
        exact hmem (hxe ▸ List.mem_map_of_mem StoredMessage.id hx)
      simp [pollMessages, jsTruthy_some, hl, hfind]
  · intro lid l1 l2 e hl hnd hsplit hid
    have hids : (l1.map StoredMessage.id).Disjoint
        (e.id :: l2.map StoredMessage.id) := by
      rw [hsplit] at hnd
      simp only [List.map_append, List.map_cons] at hnd
      exact (List.nodup_append.mp hnd).2.2
    have hmiss : ∀ x ∈ l1, (x.id == lid) = false := by
      intro x hx
      simp only [beq_eq_false_iff_ne, ne_eq]
      intro hxe
      have hmemL : x.id ∈ l1.map StoredMessage.id :=
        List.mem_map_of_mem StoredMessage.id hx
      have hmemR : x.id ∈ e.id :: l2.map StoredMessage.id := by
        rw [hxe, ← hid]
        exact List.mem_cons_self _ _
      exact hids hmemL hmemR
    have hfind : (getThread s threadId).findIdx? (fun m => m.id == lid)
        = some l1.length := by
      rw [hsplit, List.findIdx?_append]
      have h1 : l1.findIdx? (fun m => m.id == lid) = none :=
        List.findIdx?_eq_none_iff.mpr hmiss
      have h2 : (e :: l2).findIdx? (fun m => m.id == lid) = some 0 := by
        rw [List.findIdx?_cons]
        simp [hid]
      simp [h1, h2]
    have hdrop : (getThread s threadId).drop (l1.length + 1) = l2 := by
      rw [hsplit]
      exact List.drop_append 1
    simp [pollMessages, jsTruthy_some, hl, hfind, hdrop]

/-- Witness for C3: polling thread `T1` after the second stored entry
returns exactly the third. -/
theorem poll_returns_suffix_after_cursor_witness :
    pollMessages pollStoreFix "T1" (some "msg_2_11") = [storedFix3] :=
  (poll_returns_suffix_after_cursor pollStoreFix "T1").2.2 "msg_2_11"
    [storedFix1] [storedFix3] storedFix2 (by decide) (by decide) rfl rfl

/-- Every branch of `sendMessage` leaves the prior message list as a
prefix of the new one. -/
theorem sendMessage_messages_extend (uuid : Nat → String) (nowMs : Nat)
    (s : Session) (isLoading : Bool) (content : String) (ai : AIResponse)
    (slackPost : SlackPostResponse) :
    ∃ t, (sendMessage uuid nowMs s isLoading content ai slackPost).session.messages
      = s.messages ++ t := by
  cases isLoading
  · cases hm : s.mode
    · cases ai with
      | ok text =>
        refine ⟨[{ id := uuid 0, content := content, sender := Sender.user, timestamp := nowMs },
                 { id := uuid 1, content := text, sender := Sender.bot, timestamp := nowMs }], ?_⟩
        simp [sendMessage, hm]
      | fail =>
        refine ⟨[{ id := uuid 0, content := content, sender := Sender.user, timestamp := nowMs },
                 sendFailureMessage uuid nowMs], ?_⟩
        simp [sendMessage, hm]
    · by_cases hth : jsTruthy s.slackThreadId
      · cases slackPost with
        | ok =>
          refine ⟨[{ id := uuid 0, content := content, sender := Sender.user, timestamp := nowMs }], ?_⟩
          simp [sendMessage, hm, hth]
        | fail =>
          refine ⟨[{ id := uuid 0, content := content, sender := Sender.user, timestamp := nowMs },
                   sendFailureMessage uuid nowMs], ?_⟩
          simp [sendMessage, hm, hth]
      · refine ⟨[{ id := uuid 0, content := content, sender := Sender.user, timestamp := nowMs },
                 sendFailureMessage uuid nowMs], ?_⟩
        simp [sendMessage, hm, hth]
  · exact ⟨[], by simp [sendMessage]⟩

/-- Every branch of `switchToHuman` leaves the prior message list as a
prefix of the new one. -/
theorem switchToHuman_messages_extend (uuid : Nat → String) (nowMs : Nat)
    (s : Session) (resp : CreateThreadResponse) :
    ∃ t, (switchToHuman uuid nowMs s resp).messages = s.messages ++ t := by
  cases resp with
  | success tid =>
    exact ⟨[transitionMessage uuid nowMs, handoffConfirmMessage uuid nowMs],
      by simp [switchToHuman]⟩
  | softFail => exact ⟨[transitionMessage uuid nowMs], by simp [switchToHuman]⟩
  | httpError =>
    exact ⟨[transitionMessage uuid nowMs, handoffErrorMessage uuid nowMs],
      by simp [switchToHuman]⟩

/-- Every branch of the poll tick leaves the prior message list as a
prefix of the new one. -/
theorem pollTick_messages_extend (st : WidgetState) (httpOk : Bool)
    (resp : PollApiResponse) :
    ∃ t, (pollTick st httpOk resp).session.messages
      = st.session.messages ++ t := by
  by_cases hg : !(st.session.mode == Mode.human) || !(jsTruthy st.session.slackThreadId)
  · exact ⟨[], by simp [pollTick, hg]⟩
  · cases httpOk
    · exact ⟨[], by simp [pollTick, hg]⟩
    · by_cases hs : resp.success = true ∧ resp.messages.length > 0
      · rcases hlast : resp.messages.getLast? with _ | lastMsg
        · exact ⟨[], by simp [pollTick, hg, hs.1, hs.2, hlast]⟩
        · exact ⟨resp.messages.map convertPolled,
            by simp [pollTick, hg, hs.1, hs.2, hlast]⟩
      · rcases Decidable.not_and_iff_or_not.mp hs with h | h
        · exact ⟨[], by simp [pollTick, hg, eq_false_of_ne_true h]⟩
        · have hz : ¬ (decide (resp.messages.length > 0)) = true := by
            simpa using h
          exact ⟨[], by simp [pollTick, hg, hz]⟩

/-- One widget step leaves the prior message list as a prefix. -/
theorem widgetStep_messages_extend (uuid : Nat → String) (nowMs : Nat)
    (st : WidgetState) (ev : WidgetEvent) :
    ∃ t, (widgetStep uuid nowMs st ev).session.messages
      = st.session.messages ++ t := by
  cases ev with
  | send isLoading content ai slackPost =>
    exact sendMessage_messages_extend uuid nowMs st.session isLoading content ai slackPost
  | handoff resp => exact switchToHuman_messages_extend uuid nowMs st.session resp
  | poll httpOk resp => exact pollTick_messages_extend st httpOk resp

/-- C7: over any sequence of widget operations (customer sends in AI or
HUMAN mode, hand-off requests, poll ingestions of agent replies) the
session message sequence is append-only — the prior sequence is always a
prefix of the later one, so its length never decreases and previously
appended entries are never reordered or replaced. -/
theorem widget_messages_append_only (uuid : Nat → String) (nowMs : Nat)
    (st : WidgetState) (evs : List WidgetEvent) :
    ∃ t, (widgetRun uuid nowMs st evs).session.messages
        = st.session.messages ++ t ∧
      st.session.messages.length
        ≤ (widgetRun uuid nowMs st evs).session.messages.length := by
  induction evs generalizing st with
  | nil => exact ⟨[], by simp [widgetRun]⟩
  | cons ev evs ih =>
    obtain ⟨t1, h1⟩ := widgetStep_messages_extend uuid nowMs st ev
    obtain ⟨t2, h2, _⟩ := ih (widgetStep uuid nowMs st ev)
    refine ⟨t1 ++ t2, ?_, ?_⟩
    · have : widgetRun uuid nowMs st (ev :: evs)
          = widgetRun uuid nowMs (widgetStep uuid nowMs st ev) evs := rfl
      rw [this, h2, h1, List.append_assoc]
    · have : widgetRun uuid nowMs st (ev :: evs)
          = widgetRun uuid nowMs (widgetStep uuid nowMs st ev) evs := rfl
      rw [this, h2, h1]
      simp

/-- The accumulator loop of `String.intercalate` is a left fold that
interposes the separator. -/
theorem intercalate_go_eq_foldl (sep : String) (l : List String) :
    ∀ (a : String),
      String.intercalate.go a sep l
        = l.foldl (fun acc x => acc ++ sep ++ x) a := by
  induction l with
  | nil => intro a; rw [String.intercalate.go]; rfl
  | cons x xs ih => intro a; rw [String.intercalate.go]; simp [ih]

/-- Fusing the bracket, label and colon literals around a sender label. -/
theorem label_merge (t c lbl full : String)
    (h : ("] " ++ lbl ++ ": " : String) = full) :
    "[" ++ t ++ "] " ++ lbl ++ ": " ++ c = "[" ++ t ++ full ++ c := by
  calc "[" ++ t ++ "] " ++ lbl ++ ": " ++ c
      = "[" ++ t ++ ("] " ++ lbl ++ ": ") ++ c := by simp [String.append_assoc]
    _ = "[" ++ t ++ full ++ c := by rw [h]

/-- C8: every persisted transcript line is the bracketed ISO timestamp,
the sender label — Customer for customer messages, AI Assistant for AI
messages, Human Agent for agent messages — a colon, and the content; and
the accumulated transcript of a session is those lines joined with
newlines. -/
theorem transcript_line_format (toIso : Nat → String)
    (initialMessage : Message) (msgs : List Message) :
    (∀ m : Message, m.sender = Sender.user →
      formatTranscriptEntry toIso m
        = "[" ++ toIso m.timestamp ++ "] Customer: " ++ m.content) ∧
    (∀ m : Message, m.sender = Sender.bot →
      formatTranscriptEntry toIso m
        = "[" ++ toIso m.timestamp ++ "] AI Assistant: " ++ m.content) ∧
    (∀ m : Message, m.sender = Sender.human →
      formatTranscriptEntry toIso m
        = "[" ++ toIso m.timestamp ++ "] Human Agent: " ++ m.content) ∧
    transcriptAfter toIso initialMessage msgs
      = String.intercalate "\n"
          ((initialMessage :: msgs).map (formatTranscriptEntry toIso)) := by
  refine ⟨?_, ?_, ?_, ?_⟩
  · intro m h
    simp only [formatTranscriptEntry, h]
    exact label_merge _ _ _ _ (by decide)
  · intro m h
    simp only [formatTranscriptEntry, h]
    exact label_merge _ _ _ _ (by decide)
  · intro m h
    simp only [formatTranscriptEntry, h]
    exact label_merge _ _ _ _ (by decide)
  · rw [List.map_cons, String.intercalate, intercalate_go_eq_foldl,
      List.foldl_map]
    rfl

/-- Witness for C8: a concrete customer line and a concrete two-line
transcript. -/
theorem transcript_line_format_witness :
    formatTranscriptEntry toString
        { id := "m1", content := "How much for photo scanning?",
          sender := Sender.user, timestamp := 42 }
      = "[42] Customer: How much for photo scanning?" ∧
    transcriptAfter toString welcomeFix
        [{ id := "m1", content := "How much for photo scanning?",
           sender := Sender.user, timestamp := 42 }]
      = String.intercalate "\n"
          ((welcomeFix ::
            [{ id := "m1", content := "How much for photo scanning?",
               sender := Sender.user, timestamp := 42 }]).map
            (formatTranscriptEntry toString)) :=
  ⟨(transcript_line_format toString welcomeFix []).1
      { id := "m1", content := "How much for photo scanning?",
        sender := Sender.user, timestamp := 42 } rfl,
   (transcript_line_format toString welcomeFix
      [{ id := "m1", content := "How much for photo scanning?",
         sender := Sender.user, timestamp := 42 }]).2.2.2⟩

/-- C9: a message of exactly the maximum length (1000 characters) passes
the input bound and is submitted by the send handler, while any value one
character over the maximum is not representable in the input. -/
theorem message_length_boundary :
    (inputValueAllowed (aString maxMessageLength) = true ∧
     handleSend false (aString maxMessageLength)
       = some (aString maxMessageLength)) ∧
    (∀ value : String, value.length = maxMessageLength + 1 →
      inputValueAllowed value = false) := by
  constructor
  · constructor
    · decide
    · decide
  · intro value h
    simp [inputValueAllowed, maxMessageLength, h]

/-- Witness for C9: the 1001-letter string is rejected by the bound. -/
theorem message_length_boundary_witness :
    inputValueAllowed (aString (maxMessageLength + 1)) = false :=
  message_length_boundary.2 (aString (maxMessageLength + 1)) (by decide)

end HBox
